import Mathlib

/-!
Stability360 actions Lambda — verification development.

Shallow embedding of the request-normalization / dispatch core and the
deterministic scoring engine of the Stability360 actions Lambda:

* `steps/stability360-actions/lambda/actions/scoring_calculator.py`
* `steps/stability360-actions/lambda/actions/index.py`

Python numbers are modelled as exact rationals (`ℚ`).  Every raw domain
score in the engine is a multiple of 1/2 and every composite a multiple of
1/6, so two-decimal rounding never meets a tie and exact rationals agree
with IEEE doubles on all values the claims mention.
-/

/- Batteries seals the `Rat` arithmetic primitives `@[irreducible]`; reopen
them so that concrete rational computations reduce in the kernel. -/
unseal Rat.mul Rat.add Rat.sub Rat.inv

namespace Stability360

/-- Integer rounding, ties to even — Python's built-in `round` mode. -/
def roundHalfEven (x : ℚ) : ℤ :=
  let f := ⌊x⌋
  if x - (f : ℚ) < 1/2 then f
  else if (1:ℚ)/2 < x - (f : ℚ) then f + 1
  else if f % 2 = 0 then f else f + 1

/-- Python `round(x, 2)` on exact rationals. -/
def round2 (x : ℚ) : ℚ := (roundHalfEven (x * 100) : ℚ) / 100

/-- Python `round(x, 3)` on exact rationals. -/
def round3 (x : ℚ) : ℚ := (roundHalfEven (x * 1000) : ℚ) / 1000

/-- Python `dict.get(k, d)` on a constant table. -/
def lookupD (tbl : List (String × ℚ)) (k : String) (d : ℚ) : ℚ :=
  match tbl.find? (fun p => p.1 == k) with
  | some p => p.2
  | none => d

/-- Model of `_clamp(value)` from `scoring_calculator.py` (defaults `low=1, high=5`). -/
def clamp (value : ℚ) : ℚ := max 1 (min 5 (round2 value))

/-- The `HOUSING_SITUATION_BASE` table. -/
def HOUSING_SITUATION_BASE : List (String × ℚ) :=
  [("homeless", 1), ("shelter", 1),
   ("couch_surfing", 2), ("temporary", 2), ("transitional", 2),
   ("renting_unstable", 3), ("renting_month_to_month", 3),
   ("renting_stable", 4), ("owner_with_mortgage", 4),
   ("owner", 5), ("owner_no_mortgage", 5)]

/-- The `EMPLOYMENT_STATUS_BASE` table. -/
def EMPLOYMENT_STATUS_BASE : List (String × ℚ) :=
  [("unable_to_work", 1), ("unemployed", 1),
   ("gig_work", 2), ("seasonal", 2),
   ("part_time", 3), ("full_time_below_standard", 3),
   ("self_employed", 3), ("student", 3),
   ("retired", 4), ("full_time", 4),
   ("full_time_above_standard", 5)]

/-- The `FICO_RANGES` table. -/
def FICO_RANGES : List (String × ℚ) :=
  [("below_580", -1), ("580-669", -(1/2)), ("670-739", 0),
   ("740-799", 1/2), ("800+", 1), ("unknown", 0)]

/-- The scoring-relevant view of a request body (`ScoringInput` of the spec):
each of the nine recognized fields is `none` when the key is absent from the
body.  Values are assumed well-typed per the spec's field types. -/
structure ScoringData where
  housing_situation : Option String
  monthly_income : Option ℚ
  monthly_housing_cost : Option ℚ
  housing_challenges : Option (List String)
  employment_status : Option String
  has_benefits : Option Bool
  monthly_expenses : Option ℚ
  savings_rate : Option ℚ
  fico_range : Option String
deriving DecidableEq

/-- Result record of `_score_housing`. -/
structure HousingScore where
  score : ℚ
  base : ℚ
  housing_ratio : ℚ
  ratio_adjustment : ℚ
  challenge_adjustment : ℚ
  challenge_count : ℕ
  priority_trigger : Bool
deriving DecidableEq

/-- The three housing challenges that force the priority escalation. -/
def priorityChallenges : List String :=
  ["eviction_notice", "shutoff_notice", "homeless"]

/-- Model of `_score_housing(data)`. -/
def score_housing (data : ScoringData) : HousingScore :=
  let situation := data.housing_situation.getD "renting_stable"
  let monthly_income := data.monthly_income.getD 0
  let monthly_housing_cost := data.monthly_housing_cost.getD 0
  let challenges := data.housing_challenges.getD []
  let base := lookupD HOUSING_SITUATION_BASE situation 3
  let ratio := if 0 < monthly_income then monthly_housing_cost / monthly_income else 1
  let ratio_adj : ℚ :=
    if 1/2 < ratio then -2
    else if 2/5 < ratio then -1
    else if 3/10 < ratio then 0
    else if 1/5 < ratio then 0
    else 1
  let challenge_adj : ℚ := -(1/2) * ((min challenges.length 4 : ℕ) : ℚ)
  let priority :=
    challenges.any (fun c => priorityChallenges.contains c) || (situation == "homeless")
  let raw := base + ratio_adj + challenge_adj
  { score := clamp raw, base := base, housing_ratio := round3 ratio,
    ratio_adjustment := ratio_adj, challenge_adjustment := challenge_adj,
    challenge_count := challenges.length, priority_trigger := priority }

/-- Result record of `_score_employment`. -/
structure EmploymentScore where
  score : ℚ
  base : ℚ
  benefits_adjustment : ℚ
  income_adjustment : ℚ
deriving DecidableEq

/-- Model of `_score_employment(data)`; `area_standard = 4200`. -/
def score_employment (data : ScoringData) : EmploymentScore :=
  let status := data.employment_status.getD "full_time"
  let has_benefits := data.has_benefits.getD false
  let monthly_income := data.monthly_income.getD 0
  let base := lookupD EMPLOYMENT_STATUS_BASE status 3
  let benefits_adj : ℚ := if has_benefits then 1/2 else -(1/2)
  let income_adj : ℚ :=
    if 0 < monthly_income then
      if monthly_income / 4200 < 1/2 then -1
      else if monthly_income / 4200 < 4/5 then 0
      else 1/2
    else -1
  { score := clamp (base + benefits_adj + income_adj), base := base,
    benefits_adjustment := benefits_adj, income_adjustment := income_adj }

/-- Result record of `_score_financial`. -/
structure FinancialScore where
  score : ℚ
  base : ℚ
  expense_ratio : ℚ
  savings_adjustment : ℚ
  fico_adjustment : ℚ
deriving DecidableEq

/-- Model of `_score_financial(data)`. -/
def score_financial (data : ScoringData) : FinancialScore :=
  let monthly_income := data.monthly_income.getD 0
  let monthly_expenses := data.monthly_expenses.getD 0
  let savings_rate := data.savings_rate.getD 0
  let fico_range := data.fico_range.getD "unknown"
  let expense_ratio := if 0 < monthly_income then monthly_expenses / monthly_income else 3/2
  let base : ℚ :=
    if 1 < expense_ratio then 1
    else if 9/10 < expense_ratio then 2
    else if 7/10 < expense_ratio then 3
    else if 1/2 < expense_ratio then 4
    else 5
  let savings_adj : ℚ :=
    if savings_rate ≤ 0 then -1
    else if savings_rate < 3/100 then -(1/2)
    else if savings_rate < 1/10 then 0
    else if savings_rate < 1/5 then 1/2
    else 1
  let fico_adj := lookupD FICO_RANGES fico_range 0
  { score := clamp (base + savings_adj + fico_adj), base := base,
    expense_ratio := round3 expense_ratio, savings_adjustment := savings_adj,
    fico_adjustment := fico_adj }

/-- Model of `_compute_composite(housing, employment, financial)`:
`(composite, priority, path)`. -/
def compute_composite (housing : HousingScore) (employment : EmploymentScore)
    (financial : FinancialScore) : ℚ × Bool × String :=
  let h := housing.score
  let e := employment.score
  let f := financial.score
  let composite := round2 ((h + e + f) / 3)
  let priority := (h == 1 || e == 1 || f == 1) || housing.priority_trigger
  let path :=
    if priority = true ∨ composite < 5/2 then "direct_support"
    else if composite ≤ 7/2 then "mixed"
    else "referral"
  (composite, priority, path)

/-- The deterministic fields of the `handle_scoring` result.  `record_id`
(a fresh UUID), the timestamp, `status` (constantly `"success"`) and the
human-readable `message` are environment/presentation fields; the claims
only concern the six fields below. -/
structure ScoringRes where
  housing_score : ℚ
  employment_score : ℚ
  financial_resilience_score : ℚ
  composite_score : ℚ
  priority_flag : Bool
  recommended_path : String
deriving DecidableEq

/-- The scoring pipeline of `handle_scoring` after the non-empty-body check:
domain scorers followed by `_compute_composite`. -/
def computeScoring (data : ScoringData) : ScoringRes :=
  let housing := score_housing data
  let employment := score_employment data
  let financial := score_financial data
  let c := compute_composite housing employment financial
  { housing_score := housing.score, employment_score := employment.score,
    financial_resilience_score := financial.score, composite_score := c.1,
    priority_flag := c.2.1, recommended_path := c.2.2 }

/-!
Router (`index.py`).

JSON values are modelled by `Val`.  A Python string is `vstr raw parsed`
where `parsed` records the outcome of `json.loads raw` when the code
applies it: `some d` means the text is a JSON object with content `d`,
`none` means `json.loads` raises (malformed text; JSON strings denoting
non-object values are outside the model).  `json.dumps`/`json.loads`
round-tripping of a response body is modelled as the identity.
-/

/-- A JSON-ish Python value. -/
inductive Val where
  | vnull : Val
  | vbool : Bool → Val
  | vnum : ℚ → Val
  | vstr : String → Option (List (String × Val)) → Val
  | varr : List Val → Val
  | vobj : List (String × Val) → Val

/-- A Python dict with string keys (association list in insertion order). -/
abbrev Dict := List (String × Val)

/-- Python `d.get(k)` / `d[k]`. -/
def dictGet (m : Dict) (k : String) : Option Val :=
  match m.find? (fun p => p.1 == k) with
  | some p => some p.2
  | none => none

/-- Python `k in d`. -/
def containsKey (m : Dict) (k : String) : Bool :=
  (m.find? (fun p => p.1 == k)).isSome

/-- Assignment `d[k] = v`: replace in place if the key exists, else append. -/
def dictSet (m : Dict) (k : String) (v : Val) : Dict :=
  if m.any (fun p => p.1 == k) then m.map (fun p => if p.1 == k then (k, v) else p)
  else m ++ [(k, v)]

/-- Removal effect of `d.pop(k, None)`. -/
def dictRemove (m : Dict) (k : String) : Dict :=
  m.filter (fun p => p.1 != k)

/-- Python truthiness of a value. -/
def pyTruthy : Val → Bool
  | .vnull => false
  | .vbool b => b
  | .vnum q => decide (q ≠ 0)
  | .vstr s _ => decide (s ≠ "")
  | .varr xs => !xs.isEmpty
  | .vobj m => !m.isEmpty

/-- Python `str(value)` as used on attribute values.  Faithful on strings,
booleans and `None`; the decimal rendering of numbers and the element-wise
rendering of containers is abstracted (it is never blank, which is all the
router inspects). -/
def pyValStr : Val → String
  | .vnull => "None"
  | .vbool true => "True"
  | .vbool false => "False"
  | .vnum q => toString q
  | .vstr s _ => s
  | .varr _ => "[...]"
  | .vobj _ => "\x7b...\x7d"

/-- Whitespace characters stripped by Python `str.strip()`. -/
def isSpaceChar (c : Char) : Bool :=
  c == ' ' || c == '\t' || c == '\n' || c == '\r' || c == '\x0b' || c == '\x0c'

/-- Python `str.strip()`. -/
def pyStrip (s : String) : String :=
  ⟨((s.data.dropWhile isSpaceChar).reverse.dropWhile isSpaceChar).reverse⟩

/-- One character of `[0-9a-fA-F]`. -/
def isHexChar (c : Char) : Bool :=
  c.isDigit || ('a' ≤ c && c ≤ 'f') || ('A' ≤ c && c ≤ 'F')

/-- Split a character list at every occurrence of `c` (Python
`s.split('-')` semantics). -/
def splitCharList (c : Char) : List Char → List (List Char)
  | [] => [[]]
  | x :: xs =>
    if x == c then [] :: splitCharList c xs
    else
      match splitCharList c xs with
      | [] => [[x]]
      | g :: gs => (x :: g) :: gs

/-- Success of `UUID_RE.match(s)`: the canonical 8-4-4-4-12 hex shape,
case-insensitive.  (`re.match` is anchored by the pattern's `^...$`; the
ids it is applied to are already stripped, so the `$`-before-trailing-
newline subtlety cannot arise.) -/
def isUuidShape (s : String) : Bool :=
  match splitCharList '-' s.data with
  | [g1, g2, g3, g4, g5] =>
    g1.length == 8 && g2.length == 4 && g3.length == 4 && g4.length == 4 &&
    g5.length == 12 && (g1 ++ g2 ++ g3 ++ g4 ++ g5).all isHexChar
  | _ => false

/-- The `ATTR_MAP` of `index.py`, in source (= dict insertion) order. -/
def ATTR_MAP : List (String × String) :=
  [("firstName", "firstName"), ("lastName", "lastName"),
   ("zipCode", "zipCode"), ("zip_code", "zipCode"),
   ("county", "county"), ("contactMethod", "contactMethod"),
   ("phoneNumber", "phoneNumber"), ("emailAddress", "emailAddress"),
   ("preferredDays", "preferredDays"), ("preferredTimes", "preferredTimes"),
   ("needCategory", "needCategory"), ("keyword", "needCategory"),
   ("needSubcategory", "needSubcategory"), ("path", "path"),
   ("age", "age"), ("hasChildrenUnder18", "hasChildrenUnder18"),
   ("employmentStatus", "employmentStatus"), ("employment_status", "employmentStatus"),
   ("employer", "employer"),
   ("militaryAffiliation", "militaryAffiliation"),
   ("publicAssistance", "publicAssistance"),
   ("housing_situation", "housingSituation"), ("housingSituation", "housingSituation"),
   ("monthly_income", "monthlyIncome"), ("monthlyIncome", "monthlyIncome"),
   ("monthly_housing_cost", "monthlyHousingCost"), ("monthlyHousingCost", "monthlyHousingCost"),
   ("monthly_expenses", "monthlyExpenses"), ("monthlyExpenses", "monthlyExpenses"),
   ("savings_rate", "savingsRate"), ("savingsRate", "savingsRate"),
   ("fico_range", "ficoRange"), ("ficoRange", "ficoRange"),
   ("has_benefits", "hasBenefits"), ("hasBenefits", "hasBenefits"),
   ("partnerEmployee", "partnerEmployee"), ("partnerEmployer", "partnerEmployer"),
   ("escalationRoute", "escalationRoute")]

/-- The `score_fields` map of `_save_contact_attributes`, in source order. -/
def SCORE_FIELDS : List (String × String) :=
  [("housing_score", "housingScore"),
   ("employment_score", "employmentScore"),
   ("financial_resilience_score", "financialResilienceScore"),
   ("composite_score", "compositeScore"),
   ("priority_flag", "priorityFlag"),
   ("recommended_path", "recommendedPath")]

/-- Lookup in the string→string attribute dict being built. -/
def attrGet (m : List (String × String)) (k : String) : Option String :=
  (m.find? (fun p => p.1 == k)).map (fun p => p.2)

/-- Assignment `attributes[k] = v` on the attribute dict. -/
def attrSet (m : List (String × String)) (k v : String) : List (String × String) :=
  if m.any (fun p => p.1 == k) then m.map (fun p => if p.1 == k then (k, v) else p)
  else m ++ [(k, v)]

/-- One iteration of the body-keys collection loop of
`_save_contact_attributes`:
`if value is not None and str(value).strip(): attributes[attr] = str(value).strip()`. -/
def collectStep (body : Dict) (acc : List (String × String)) (p : String × String) :
    List (String × String) :=
  match dictGet body p.1 with
  | none => acc
  | some .vnull => acc
  | some v =>
    if pyStrip (pyValStr v) == "" then acc
    else attrSet acc p.2 (pyStrip (pyValStr v))

/-- The body-keys collection loop, iterating `ATTR_MAP` in insertion
order. -/
def collectBodyAttributes (body : Dict) : List (String × String) :=
  ATTR_MAP.foldl (collectStep body) []

/-- The result-fields collection loop of `_save_contact_attributes`:
`if value is not None: attributes[attr] = str(value).strip()`. -/
def collectScoreAttributes (result : Dict) (acc : List (String × String)) :
    List (String × String) :=
  SCORE_FIELDS.foldl (fun acc p =>
    match dictGet result p.1 with
    | none => acc
    | some .vnull => acc
    | some v => attrSet acc p.2 (pyStrip (pyValStr v))) acc

/-- Exceptions of the embedded Python code. -/
inductive PyErr where
  | valueError : String → PyErr
  | typeError : PyErr
  | attributeError : PyErr
  | jsonDecodeError : PyErr
  | otherError : String → PyErr
deriving DecidableEq

/-- Exceptions that can escape `_save_contact_attributes`. -/
inductive SaveErr where
  | attrError : SaveErr
  | otherError : String → SaveErr
deriving DecidableEq

def SaveErr.toPyErr : SaveErr → PyErr
  | .attrError => .attributeError
  | .otherError m => .otherError m

/-- Outcome of the external `connect.update_contact_attributes` call —
an environment input.  `clientError` is a `botocore` `ClientError` (the
only class the source catches); `otherError` is any other exception the
call can raise. -/
inductive WriteOutcome where
  | success : WriteOutcome
  | clientError : String → WriteOutcome
  | otherError : String → WriteOutcome
deriving DecidableEq

/-- A performed `update_contact_attributes` request. -/
structure ConnectWrite where
  instanceId : String
  contactId : String
  attributes : List (String × String)
deriving DecidableEq

/-- Process environment and external collaborators: the
`CONNECT_INSTANCE_ID` env var, the session-store write behaviour, and the
(external, I/O-bound) resource-lookup operation. -/
structure Env where
  connectInstanceId : String
  writeOutcome : WriteOutcome
  resourceLookupImpl : Val → Except PyErr Dict

/-- Model of `body.get('instance_id') or CONNECT_INSTANCE_ID`. -/
def rawInstanceVal (env : Env) (body : Dict) : Val :=
  match dictGet body "instance_id" with
  | some v => if pyTruthy v then v else .vstr env.connectInstanceId none
  | none => .vstr env.connectInstanceId none

/-- Model of `body.get('contact_id') or ''`. -/
def rawContactVal (body : Dict) : Val :=
  match dictGet body "contact_id" with
  | some v => if pyTruthy v then v else .vstr "" none
  | none => .vstr "" none

/-- Model of `raw.strip() if raw else ''` — `.strip()` on a truthy non-string raises
`AttributeError`. -/
def stripIdVal (v : Val) : Except SaveErr String :=
  if pyTruthy v then
    match v with
    | .vstr s _ => .ok (pyStrip s)
    | _ => .error .attrError
  else .ok ""

/-- The body of `_save_contact_attributes(body, result, request_id)` on a
dict body.  Returns `some w` when the external write was attempted with
request `w` (the `ClientError` case is caught in place), `none` when the
step returned without attempting a write. -/
def saveContactAttributesObj (env : Env) (b : Dict) (result : Dict) :
    Except SaveErr (Option ConnectWrite) := do
  let instance_id ← stripIdVal (rawInstanceVal env b)
  let contact_id ← stripIdVal (rawContactVal b)
  if instance_id == "" || !isUuidShape instance_id then .ok none
  else if contact_id == "" || !isUuidShape contact_id then .ok none
  else
    let attributes := collectScoreAttributes result (collectBodyAttributes b)
    if attributes.isEmpty then .ok none
    else
      match env.writeOutcome with
      | .success => .ok (some ⟨instance_id, contact_id, attributes⟩)
      | .clientError _ => .ok (some ⟨instance_id, contact_id, attributes⟩)
      | .otherError m => .error (.otherError m)

/-- Model of `_save_contact_attributes` on the routed body value (`body.get` on a
non-dict raises `AttributeError`). -/
def saveContactAttributes (env : Env) (body : Val) (result : Dict) :
    Except SaveErr (Option ConnectWrite) :=
  match body with
  | .vobj b => saveContactAttributesObj env b result
  | _ => .error .attrError

/-!
The scoring operation on raw dict bodies.
-/

def valAsStr : Val → Except PyErr String
  | .vstr s _ => .ok s
  | _ => .error .typeError

/-- Read an optional string field of the body. -/
def extractStrField (d : Dict) (k : String) : Except PyErr (Option String) :=
  match dictGet d k with
  | none => .ok none
  | some (.vstr s _) => .ok (some s)
  | some _ => .error .typeError

/-- Read an optional numeric field of the body. -/
def extractNumField (d : Dict) (k : String) : Except PyErr (Option ℚ) :=
  match dictGet d k with
  | none => .ok none
  | some (.vnum q) => .ok (some q)
  | some _ => .error .typeError

/-- Read an optional boolean field of the body. -/
def extractBoolField (d : Dict) (k : String) : Except PyErr (Option Bool) :=
  match dictGet d k with
  | none => .ok none
  | some (.vbool b) => .ok (some b)
  | some _ => .error .typeError

/-- Read an optional list-of-strings field of the body. -/
def extractStrListField (d : Dict) (k : String) : Except PyErr (Option (List String)) :=
  match dictGet d k with
  | none => .ok none
  | some (.varr xs) => do
      let ss ← xs.mapM valAsStr
      .ok (some ss)
  | some _ => .error .typeError

/-- Typed extraction of the nine scoring fields from a dict body, per the
spec's `ScoringInput` field types.  A present field of an unexpected type
is rejected (Python's duck typing tolerates a few more shapes — e.g. any
truthy value for `has_benefits` — none of which the claims need). -/
def extractScoringData (d : Dict) : Except PyErr ScoringData := do
  let housing_situation ← extractStrField d "housing_situation"
  let monthly_income ← extractNumField d "monthly_income"
  let monthly_housing_cost ← extractNumField d "monthly_housing_cost"
  let housing_challenges ← extractStrListField d "housing_challenges"
  let employment_status ← extractStrField d "employment_status"
  let has_benefits ← extractBoolField d "has_benefits"
  let monthly_expenses ← extractNumField d "monthly_expenses"
  let savings_rate ← extractNumField d "savings_rate"
  let fico_range ← extractStrField d "fico_range"
  .ok ⟨housing_situation, monthly_income, monthly_housing_cost, housing_challenges,
       employment_status, has_benefits, monthly_expenses, savings_rate, fico_range⟩

/-- The deterministic fields of the `handle_scoring` result dict
(`status`, the three domain scores, composite, priority flag, path);
`record_id` (fresh UUID) and `message` are environment/presentation
fields omitted from the model. -/
def scoringResultDict (r : ScoringRes) : Dict :=
  [("status", .vstr "success" none),
   ("housing_score", .vnum r.housing_score),
   ("employment_score", .vnum r.employment_score),
   ("financial_resilience_score", .vnum r.financial_resilience_score),
   ("composite_score", .vnum r.composite_score),
   ("priority_flag", .vbool r.priority_flag),
   ("recommended_path", .vstr r.recommended_path none)]

/-- Model of `handle_scoring(body)` on a raw value: `if not body: raise ValueError`,
then the scoring pipeline (`.get` on a truthy non-dict raises
`AttributeError`). -/
def handleScoringVal (body : Val) : Except PyErr Dict :=
  if pyTruthy body then
    match body with
    | .vobj d => do
        let data ← extractScoringData d
        .ok (scoringResultDict (computeScoring data))
    | _ => .error .attributeError
  else .error (.valueError "Request body is required")

/-!
Route tables, normalization, dispatch.
-/

/-- The two registered operations.  `resourceLookup`
(`sophia_resource_lookup.handle_resource_lookup`) is I/O-bound (211 API
over HTTP) and is supplied by the environment (`Env.resourceLookupImpl`). -/
inductive HandlerTag where
  | scoring : HandlerTag
  | resourceLookup : HandlerTag
deriving DecidableEq

def PATH_ROUTES : List (String × HandlerTag) :=
  [("/scoring/calculate", .scoring), ("/resources/search", .resourceLookup)]

def TOOL_ROUTES : List (String × HandlerTag) :=
  [("scoringCalculate", .scoring), ("resourceLookup", .resourceLookup)]

def ACTION_ROUTES : List (String × HandlerTag) :=
  [("scoring", .scoring), ("resource_lookup", .resourceLookup)]

def routeLookup (tbl : List (String × HandlerTag)) (k : String) : Option HandlerTag :=
  (tbl.find? (fun p => p.1 == k)).map (fun p => p.2)

/-- The `(route_type, route_key)` pair produced by `_extract_route_and_body`. -/
inductive RouteSel where
  | path : Val → RouteSel
  | tool : String → RouteSel
  | action : Val → RouteSel
  | unknown : RouteSel

/-- Everything after the leftmost occurrence of `"___"`, or `none` when the
separator does not occur. -/
def afterSepAux : List Char → Option (List Char)
  | '_' :: '_' :: '_' :: rest => some rest
  | _ :: xs => afterSepAux xs
  | [] => none

/-- Model of `tool_name.split('___', 1)[1] if '___' in tool_name else tool_name`. -/
def stripToolTarget (s : String) : String :=
  match afterSepAux s.data with
  | some rest => ⟨rest⟩
  | none => s

/-- Model of `_extract_route_and_body(event)`.  A non-string `toolName` is modelled
as a `TypeError` (`'___' in tool_name`). -/
def extractRouteAndBody (ev : Dict) : Except PyErr (RouteSel × Val) :=
  if containsKey ev "httpMethod" || containsKey ev "resource" then
    let pathv : Val :=
      match dictGet ev "resource" with
      | some v => if pyTruthy v then v else (dictGet ev "path").getD (.vstr "" none)
      | none => (dictGet ev "path").getD (.vstr "" none)
    match dictGet ev "body" with
    | some bv =>
      if pyTruthy bv then
        match bv with
        | .vstr _ (some d) => .ok (.path pathv, .vobj d)
        | .vstr _ none => .error .jsonDecodeError
        | _ => .ok (.path pathv, bv)
      else .ok (.path pathv, .vobj [])
    | none => .ok (.path pathv, .vobj [])
  else if containsKey ev "toolName" then
    match dictGet ev "toolName" with
    | some (.vstr s _) =>
      let tool_name := stripToolTarget s
      (match dictGet ev "arguments" with
       | none => .ok (.tool tool_name, .vobj [])
       | some (.vstr _ (some d)) => .ok (.tool tool_name, .vobj d)
       | some (.vstr _ none) => .error .jsonDecodeError
       | some v => .ok (.tool tool_name, v))
    | _ => .error .typeError
  else if containsKey ev "action" then
    match dictGet ev "action" with
    | some av => .ok (.action av, (dictGet ev "payload").getD (.vobj ev))
    | none => .ok (.unknown, .vobj ev)
  else .ok (.unknown, .vobj ev)

/-- Model of `_resolve_handler(route_type, route_key)`. -/
def resolveHandler : RouteSel → Option HandlerTag
  | .path (.vstr s _) => routeLookup PATH_ROUTES s
  | .path _ => none
  | .tool s => routeLookup TOOL_ROUTES s
  | .action (.vstr s _) => routeLookup ACTION_ROUTES s
  | .action _ => none
  | .unknown => none

/-- The fixed security headers of `_response`. -/
def RESPONSE_HEADERS : List (String × String) :=
  [("Content-Type", "application/json"),
   ("Cache-Control", "no-store"),
   ("Strict-Transport-Security", "max-age=31536000; includeSubDomains"),
   ("X-Content-Type-Options", "nosniff")]

/-- Model of `_response(status_code, body)`; `json.dumps` of the body is modelled as
the identity on the value. -/
def mkResponse (statusCode : ℚ) (body : Dict) : Dict :=
  [("statusCode", .vnum statusCode),
   ("headers", .vobj (RESPONSE_HEADERS.map (fun p => (p.1, Val.vstr p.2 none)))),
   ("body", .vobj body)]

/-- The success-path post-processing of `handler` (lines 327–339):
`result.pop('sessionAttributes', None)`, `_response(200, result)`, and —
only when the popped value is truthy — re-insertion of the value at the
top level of the *body* (`response_body['sessionAttributes'] = ...`). -/
def handlerSuccessResponse (result : Dict) : Dict :=
  let session_attrs := dictGet result "sessionAttributes"
  let result1 := dictRemove result "sessionAttributes"
  let response := mkResponse 200 result1
  match session_attrs with
  | some v =>
    if pyTruthy v then
      dictSet response "body" (.vobj (dictSet result1 "sessionAttributes" v))
    else response
  | none => response

/-- Run the resolved operation. -/
def runOp (env : Env) (tag : HandlerTag) (body : Val) : Except PyErr Dict :=
  match tag with
  | .scoring => handleScoringVal body
  | .resourceLookup => env.resourceLookupImpl body

/-- The `try:` block of `handler`: run the operation, then the
attribute-persistence step, then build the success response. -/
def tryBlock (env : Env) (tag : HandlerTag) (body : Val) : Except PyErr Dict := do
  let result ← runOp env tag body
  match saveContactAttributes env body result with
  | .ok _ => .ok (handlerSuccessResponse result)
  | .error e => .error e.toPyErr

/-- The `try/except` of `handler` once a route is resolved:
`ValueError → 400`, any other exception → 500. -/
def handleRouted (env : Env) (tag : HandlerTag) (body : Val) : Dict :=
  match tryBlock env tag body with
  | .ok resp => resp
  | .error (.valueError m) => mkResponse 400 [("error", .vstr m none)]
  | .error _ => mkResponse 500 [("error", .vstr "Internal server error" none)]

/-- Rendering of the route key in the 404 message f-string. -/
def routeKeyMsgStr : RouteSel → String
  | .path v => pyValStr v
  | .tool s => s
  | .action v => pyValStr v
  | .unknown => "None"

/-- Model of `handler(event, context)`.  Route extraction runs *before* the
`try/except`, so an exception raised there escapes the function
(`.error`); anything after resolution yields a response dict (`.ok`). -/
def handler (env : Env) (ev : Dict) : Except PyErr Dict :=
  match extractRouteAndBody ev with
  | .error e => .error e
  | .ok (sel, body) =>
    match resolveHandler sel with
    | none =>
      .ok (mkResponse 404 [("error", .vstr ("Unknown route: " ++ routeKeyMsgStr sel) none)])
    | some tag => .ok (handleRouted env tag body)

/-!
Spec-side auxiliary definitions and concrete instances.
-/

/-- A `ScoringData` with every field present — used to state the
defaulting property of the engine. -/
structure ScoringInputTotal where
  housing_situation : String
  monthly_income : ℚ
  monthly_housing_cost : ℚ
  housing_challenges : List String
  employment_status : String
  has_benefits : Bool
  monthly_expenses : ℚ
  savings_rate : ℚ
  fico_range : String
deriving DecidableEq

/-- Fill every absent field with its documented default
(`renting_stable`, 0, 0, `[]`, `full_time`, `False`, 0, 0, `unknown`). -/
def applyDefaults (sd : ScoringData) : ScoringInputTotal :=
  ⟨sd.housing_situation.getD "renting_stable",
   sd.monthly_income.getD 0,
   sd.monthly_housing_cost.getD 0,
   sd.housing_challenges.getD [],
   sd.employment_status.getD "full_time",
   sd.has_benefits.getD false,
   sd.monthly_expenses.getD 0,
   sd.savings_rate.getD 0,
   sd.fico_range.getD "unknown"⟩

/-- View a total input as a body with every field present. -/
def totalToData (t : ScoringInputTotal) : ScoringData :=
  ⟨some t.housing_situation, some t.monthly_income, some t.monthly_housing_cost,
   some t.housing_challenges, some t.employment_status, some t.has_benefits,
   some t.monthly_expenses, some t.savings_rate, some t.fico_range⟩

/-- The `(resolved handler, extracted body)` pair of an event, `none` when extraction
raises or no route matches. -/
def dispatched (ev : Dict) : Option (Option HandlerTag × Val) :=
  match extractRouteAndBody ev with
  | .ok (sel, b) => some (resolveHandler sel, b)
  | .error _ => none

/-- The operation outcome an event leads to (before the persistence step
and response building); `none` when extraction raises or no route matches. -/
def invokeOp (env : Env) (ev : Dict) : Option (Except PyErr Dict) :=
  match extractRouteAndBody ev with
  | .ok (sel, b) =>
    match resolveHandler sel with
    | some tag => some (runOp env tag b)
    | none => none
  | .error _ => none

/-- The scoring operation addressed as an API-Gateway request. -/
def gatewayScoringEvent (b : Dict) : Dict :=
  [("httpMethod", .vstr "POST" none), ("resource", .vstr "/scoring/calculate" none),
   ("body", .vobj b)]

/-- The scoring operation addressed as a bare MCP tool call. -/
def toolScoringEvent (b : Dict) : Dict :=
  [("toolName", .vstr "scoringCalculate" none), ("arguments", .vobj b)]

/-- The scoring operation addressed as a target-prefixed MCP tool call. -/
def toolPrefixedScoringEvent (b : Dict) : Dict :=
  [("toolName", .vstr "target___scoringCalculate" none), ("arguments", .vobj b)]

/-- The scoring operation addressed as a direct invocation. -/
def directScoringEvent (b : Dict) : Dict :=
  [("action", .vstr "scoring" none), ("payload", .vobj b)]

/-- A benign environment: no configured instance id, writes succeed,
resource lookup returns an empty result. -/
def envDefault : Env := ⟨"", .success, fun _ => .ok []⟩

/-- An environment whose session-store write raises a non-`ClientError`
exception (e.g. a connection error). -/
def envBadWrite : Env := ⟨"", .otherError "connection reset", fun _ => .ok []⟩

/-- A syntactically valid contact/instance UUID. -/
def uuidA : String := "12345678-1234-1234-1234-123456789abc"

/-- Crisis input with a priority trigger but strong financial domain:
composite lands inside `[2.5, 3.5]` while the path is `direct_support`. -/
def scoringCexC1 : ScoringData :=
  ⟨some "homeless", some 800, some 0, none, some "unemployed", none,
   some 0, some (1/4), some "800+"⟩

/-- Scenario-A-like input used to instantiate universally quantified
theorems. -/
def scoringSampleA : ScoringData :=
  ⟨some "homeless", some 800, some 0, none, some "unemployed", none,
   none, none, none⟩

/-- A one-field scoring body and its typed extraction. -/
def bodyC9w : Dict := [("monthly_income", .vnum 800)]

def sdC9w : ScoringData := ⟨none, some 800, none, none, none, none, none, none, none⟩

/-- Gateway event whose string body is malformed JSON. -/
def evMalformedGw : Dict :=
  [("httpMethod", .vstr "POST" none), ("resource", .vstr "/scoring/calculate" none),
   ("body", .vstr "not json" none)]

/-- Tool event whose string arguments are malformed JSON. -/
def evMalformedTool : Dict :=
  [("toolName", .vstr "scoringCalculate" none), ("arguments", .vstr "not json" none)]

/-- An operation result carrying a non-empty `sessionAttributes` field. -/
def resultWithAttrs : Dict :=
  [("status", .vstr "success" none),
   ("sessionAttributes", .vobj [("k", .vstr "v" none)])]

/-- An operation result carrying a present-but-empty (falsy)
`sessionAttributes` field. -/
def resultWithEmptyAttrs : Dict :=
  [("status", .vstr "success" none), ("sessionAttributes", .vobj [])]

/-- Environment whose resource-lookup operation returns
`resultWithAttrs`. -/
def envC5 : Env := ⟨"", .success, fun _ => .ok resultWithAttrs⟩

/-- Direct invocation of the resource-lookup operation. -/
def evC5 : Dict := [("action", .vstr "resource_lookup" none)]

/-- A scoring body carrying valid correlation ids. -/
def bodyC6cex : Dict :=
  [("instance_id", .vstr uuidA none), ("contact_id", .vstr uuidA none),
   ("monthly_income", .vnum 800)]

/-- Direct invocation of scoring with `bodyC6cex`. -/
def evC6cex : Dict := [("action", .vstr "scoring" none), ("payload", .vobj bodyC6cex)]

/-- The scoring result for `bodyC6cex`. -/
def opResultC6 : Dict := scoringResultDict (computeScoring sdC9w)

/-- A body whose contact id is valid but whose instance id is absent
(and no env fallback is configured). -/
def bodyC7w : Dict := [("contact_id", .vstr uuidA none)]

/-- A body carrying both aliases of three whitelisted attributes. -/
def bodyAliases : Dict :=
  [("zipCode", .vstr "11111" none), ("zip_code", .vstr "22222" none),
   ("needCategory", .vstr "food" none), ("keyword", .vstr "rent" none),
   ("housing_situation", .vstr "shelter" none), ("housingSituation", .vstr "homeless" none)]

/-!
Theorems.
-/

/-- The clamp lands in `[1, 5]`. -/
theorem clamp_bnd (x : ℚ) : 1 ≤ clamp x ∧ clamp x ≤ 5 :=
  ⟨le_max_left 1 _, max_le (by norm_num) (min_le_left _ _)⟩

/-- C2: for every `ScoringInput`, each of the three domain scores lies in
`[1, 5]`, and the composite score is the arithmetic mean of the three
domain scores rounded to 2 decimals. -/
theorem C2_domain_scores_in_range_and_composite_mean (inp : ScoringData) :
    (1 ≤ (computeScoring inp).housing_score ∧ (computeScoring inp).housing_score ≤ 5) ∧
    (1 ≤ (computeScoring inp).employment_score ∧ (computeScoring inp).employment_score ≤ 5) ∧
    (1 ≤ (computeScoring inp).financial_resilience_score ∧
      (computeScoring inp).financial_resilience_score ≤ 5) ∧
    (computeScoring inp).composite_score =
      round2 (((computeScoring inp).housing_score + (computeScoring inp).employment_score +
        (computeScoring inp).financial_resilience_score) / 3) :=
  ⟨clamp_bnd _, clamp_bnd _, clamp_bnd _, rfl⟩

/-- C3: for every `ScoringInput`, the priority flag is set iff some domain
score equals 1, or a housing challenge lies in
`{eviction_notice, shutoff_notice, homeless}`, or the housing situation is
exactly `"homeless"`. -/
theorem C3_priority_flag_iff (inp : ScoringData) :
    (computeScoring inp).priority_flag = true ↔
      (((computeScoring inp).housing_score = 1 ∨ (computeScoring inp).employment_score = 1 ∨
        (computeScoring inp).financial_resilience_score = 1) ∨
       (∃ c ∈ inp.housing_challenges.getD [], c ∈ priorityChallenges) ∨
       inp.housing_situation = some "homeless") := by
  have hflag : (computeScoring inp).priority_flag =
      (((computeScoring inp).housing_score == 1 || (computeScoring inp).employment_score == 1 ||
        (computeScoring inp).financial_resilience_score == 1) ||
       ((inp.housing_challenges.getD []).any (fun c => priorityChallenges.contains c) ||
        (inp.housing_situation.getD "renting_stable" == "homeless"))) := rfl
  have hsit : inp.housing_situation.getD "renting_stable" = "homeless" ↔
      inp.housing_situation = some "homeless" := by
    cases inp.housing_situation with
    | none => simp
    | some s => simp
  rw [hflag]
  simp only [Bool.or_eq_true, beq_iff_eq, List.any_eq_true, List.contains, List.elem_iff]
  rw [hsit]
  constructor
  · rintro (((a | b) | c) | (e | s))
    · exact Or.inl (Or.inl a)
    · exact Or.inl (Or.inr (Or.inl b))
    · exact Or.inl (Or.inr (Or.inr c))
    · exact Or.inr (Or.inl e)
    · exact Or.inr (Or.inr s)
  · rintro ((a | b | c) | (e | s))
    · exact Or.inl (Or.inl (Or.inl a))
    · exact Or.inl (Or.inl (Or.inr b))
    · exact Or.inl (Or.inr c)
    · exact Or.inr (Or.inl e)
    · exact Or.inr (Or.inr s)

/-- C3 instantiated at a concrete crisis input. -/
theorem C3_priority_flag_witness :
    (computeScoring scoringSampleA).priority_flag = true ↔
      (((computeScoring scoringSampleA).housing_score = 1 ∨
        (computeScoring scoringSampleA).employment_score = 1 ∨
        (computeScoring scoringSampleA).financial_resilience_score = 1) ∨
       (∃ c ∈ scoringSampleA.housing_challenges.getD [], c ∈ priorityChallenges) ∨
       scoringSampleA.housing_situation = some "homeless") :=
  C3_priority_flag_iff scoringSampleA

/-- C1 counterexample: the claim reads each path clause as a biconditional,
in particular `recommended_path = "mixed"` iff `2.5 ≤ composite ≤ 3.5`.  On
this input the priority flag is set while the composite lands at 2.67
inside `[2.5, 3.5]`, and the code returns `"direct_support"`, not
`"mixed"` — the `"mixed"` biconditional fails (the code's guards are
sequential, not independent). -/
theorem C1_counterexample_mixed_band_not_mixed :
    (computeScoring scoringCexC1).priority_flag = true ∧
    (computeScoring scoringCexC1).composite_score = 267/100 ∧
    5/2 ≤ (computeScoring scoringCexC1).composite_score ∧
    (computeScoring scoringCexC1).composite_score ≤ 7/2 ∧
    (computeScoring scoringCexC1).recommended_path = "direct_support" ∧
    (computeScoring scoringCexC1).recommended_path ≠ "mixed" := by
  decide

/-- C1 (amended): the decision tree is sequential —
`"direct_support"` iff `priority ∨ composite < 2.5`; `"mixed"` iff neither
of those holds and `composite ≤ 3.5` (hence `2.5 ≤ composite ≤ 3.5`);
`"referral"` otherwise.  Every boundary is as the claim states; only the
`"mixed"` clause additionally requires the `"direct_support"` guard to
have failed. -/
theorem C1_path_decision_tree (inp : ScoringData) :
    ((computeScoring inp).recommended_path = "direct_support" ↔
      ((computeScoring inp).priority_flag = true ∨
        (computeScoring inp).composite_score < 5/2)) ∧
    ((computeScoring inp).recommended_path = "mixed" ↔
      (¬((computeScoring inp).priority_flag = true ∨
          (computeScoring inp).composite_score < 5/2) ∧
        (computeScoring inp).composite_score ≤ 7/2)) ∧
    ((computeScoring inp).recommended_path = "referral" ↔
      (¬((computeScoring inp).priority_flag = true ∨
          (computeScoring inp).composite_score < 5/2) ∧
        ¬(computeScoring inp).composite_score ≤ 7/2)) ∧
    ((computeScoring inp).recommended_path = "mixed" →
      5/2 ≤ (computeScoring inp).composite_score ∧
        (computeScoring inp).composite_score ≤ 7/2) := by
  have hpath : (computeScoring inp).recommended_path =
      (if (computeScoring inp).priority_flag = true ∨
          (computeScoring inp).composite_score < 5/2
       then "direct_support"
       else if (computeScoring inp).composite_score ≤ 7/2 then "mixed"
       else "referral") := rfl
  have hdm : ("direct_support" : String) ≠ "mixed" := by decide
  have hdr : ("direct_support" : String) ≠ "referral" := by decide
  have hmd : ("mixed" : String) ≠ "direct_support" := by decide
  have hmr : ("mixed" : String) ≠ "referral" := by decide
  have hrd : ("referral" : String) ≠ "direct_support" := by decide
  have hrm : ("referral" : String) ≠ "mixed" := by decide
  by_cases h1 : (computeScoring inp).priority_flag = true ∨
      (computeScoring inp).composite_score < 5/2
  · rw [hpath, if_pos h1]
    exact ⟨iff_of_true rfl h1, iff_of_false hdm (fun hc => hc.1 h1),
      iff_of_false hdr (fun hc => hc.1 h1), fun hEq => absurd hEq hdm⟩
  · rw [hpath, if_neg h1]
    by_cases h2 : (computeScoring inp).composite_score ≤ 7/2
    · rw [if_pos h2]
      exact ⟨iff_of_false hmd h1, iff_of_true rfl ⟨h1, h2⟩,
        iff_of_false hmr (fun hc => hc.2 h2),
        fun _ => ⟨le_of_not_lt (fun hlt => h1 (Or.inr hlt)), h2⟩⟩
    · rw [if_neg h2]
      exact ⟨iff_of_false hrd h1, iff_of_false hrm (fun hc => h2 hc.2),
        iff_of_true rfl ⟨h1, h2⟩, fun hEq => absurd hEq hrm⟩

/-- C1 (amended) instantiated at a concrete input. -/
theorem C1_path_decision_tree_witness :
    ((computeScoring scoringSampleA).recommended_path = "direct_support" ↔
      ((computeScoring scoringSampleA).priority_flag = true ∨
        (computeScoring scoringSampleA).composite_score < 5/2)) ∧
    ((computeScoring scoringSampleA).recommended_path = "mixed" ↔
      (¬((computeScoring scoringSampleA).priority_flag = true ∨
          (computeScoring scoringSampleA).composite_score < 5/2) ∧
        (computeScoring scoringSampleA).composite_score ≤ 7/2)) ∧
    ((computeScoring scoringSampleA).recommended_path = "referral" ↔
      (¬((computeScoring scoringSampleA).priority_flag = true ∨
          (computeScoring scoringSampleA).composite_score < 5/2) ∧
        ¬(computeScoring scoringSampleA).composite_score ≤ 7/2)) ∧
    ((computeScoring scoringSampleA).recommended_path = "mixed" →
      5/2 ≤ (computeScoring scoringSampleA).composite_score ∧
        (computeScoring scoringSampleA).composite_score ≤ 7/2) :=
  C1_path_decision_tree scoringSampleA

/-- C9 counterexample: on the empty body, `handle_scoring` raises
`ValueError('Request body is required')` instead of defaulting every
field, so the claim's parenthetical "this includes a body from which all
fields are absent" fails. -/
theorem C9_counterexample_empty_body_raises :
    handleScoringVal (.vobj []) = .error (.valueError "Request body is required") := rfl

/-- C9 (amended): for every *non-empty* body whose present scoring fields
are well-typed, the engine raises no error: each absent field is read as
its documented default and a result is returned.  (The second conjunct
states the defaulting: the computation agrees with the one on the body
with every absent field explicitly set to its documented default.) -/
theorem C9_missing_fields_defaulted (d : Dict) (sd : ScoringData)
    (hne : d ≠ []) (hex : extractScoringData d = .ok sd) :
    handleScoringVal (.vobj d) = .ok (scoringResultDict (computeScoring sd)) ∧
    computeScoring sd = computeScoring (totalToData (applyDefaults sd)) := by
  constructor
  · have ht : pyTruthy (.vobj d) = true := by
      cases d with
      | nil => exact absurd rfl hne
      | cons p l => rfl
    simp only [handleScoringVal, ht, if_true, hex]
    rfl
  · rfl

/-- C9 (amended) instantiated at a one-field body. -/
theorem C9_missing_fields_defaulted_witness :
    handleScoringVal (.vobj bodyC9w) = .ok (scoringResultDict (computeScoring sdC9w)) ∧
    computeScoring sdC9w = computeScoring (totalToData (applyDefaults sdC9w)) :=
  C9_missing_fields_defaulted bodyC9w sdC9w (by simp [bodyC9w]) rfl

/-- Monadic bind on a successful `Except` computation. -/
theorem exceptBind_ok {α β : Type} (a : α) (f : α → Except PyErr β) :
    (Except.ok a >>= f) = f a := rfl

/-- Monadic bind on a successful `Except SaveErr` computation. -/
theorem saveBind_ok {α β : Type} (a : α) (f : α → Except SaveErr β) :
    (Except.ok a >>= f) = f a := rfl

/-- A key that looks up successfully is present. -/
theorem containsKey_of_dictGet {m : Dict} {k : String} {v : Val}
    (h : dictGet m k = some v) : containsKey m k = true := by
  unfold containsKey
  unfold dictGet at h
  cases hf : m.find? (fun p => p.1 == k) with
  | none => rw [hf] at h; exact Option.noConfusion h
  | some q => rfl

/-- C4 counterexample: a gateway envelope whose string body is malformed
JSON makes `handler` itself raise the decode error (route extraction runs
before the `try/except`), so no 500/400 response envelope is produced —
the claim that the parse failure is caught at the outermost boundary
fails. -/
theorem C4_counterexample_malformed_body_crashes :
    handler envDefault evMalformedGw = .error .jsonDecodeError := rfl

/-- C4 (amended): for every envelope whose string-valued `body` (gateway
shape, truthy body) or `arguments` (tool shape) holds malformed JSON, the
parse exception propagates uncaught out of the top-level handler —
normalization runs before the `try/except` boundary, so no response
envelope (500 or otherwise) is returned. -/
theorem C4_parse_error_propagates :
    (∀ (env : Env) (ev : Dict) (raw : String),
      (containsKey ev "httpMethod" || containsKey ev "resource") = true →
      dictGet ev "body" = some (.vstr raw none) → raw ≠ "" →
      handler env ev = .error .jsonDecodeError) ∧
    (∀ (env : Env) (ev : Dict) (s : String) (po : Option Dict) (raw : String),
      (containsKey ev "httpMethod" || containsKey ev "resource") = false →
      dictGet ev "toolName" = some (.vstr s po) →
      dictGet ev "arguments" = some (.vstr raw none) →
      handler env ev = .error .jsonDecodeError) := by
  constructor
  · intro env ev raw hcond hbody hraw
    have ht : pyTruthy (.vstr raw none) = true := by simp [pyTruthy, hraw]
    simp only [handler, extractRouteAndBody, hcond, if_true, hbody, ht]
  · intro env ev s po raw hcond htool hargs
    have htn : containsKey ev "toolName" = true := containsKey_of_dictGet htool
    simp only [handler, extractRouteAndBody, hcond, htn, if_true, htool, hargs,
      Bool.false_eq_true, if_false]

/-- C4 (amended) instantiated at concrete malformed envelopes. -/
theorem C4_parse_error_propagates_witness :
    handler envDefault evMalformedGw = .error .jsonDecodeError ∧
    handler envDefault evMalformedTool = .error .jsonDecodeError :=
  ⟨C4_parse_error_propagates.1 envDefault evMalformedGw "not json" rfl rfl (by decide),
   C4_parse_error_propagates.2 envDefault evMalformedTool "scoringCalculate" none "not json"
     rfl rfl rfl⟩

/-- Re-inserting the popped key appends it at the end of the body. -/
theorem dictSet_dictRemove_append (m : Dict) (k : String) (v : Val) :
    dictSet (dictRemove m k) k v = dictRemove m k ++ [(k, v)] := by
  unfold dictSet
  have h : ((dictRemove m k).any (fun p => p.1 == k)) = false := by
    rw [Bool.eq_false_iff]
    intro hc
    rcases List.any_eq_true.mp hc with ⟨p, hp, hpk⟩
    rcases List.mem_filter.mp hp with ⟨_, hne⟩
    rw [beq_iff_eq] at hpk
    simp [hpk] at hne
  rw [h]
  simp

/-- C5 counterexample: an operation result with a (truthy, non-empty)
`sessionAttributes` field ends up with the field still inside the response
*body* — the envelope has no top-level `sessionAttributes` sibling of
`statusCode`/`headers`/`body`, so the promotion the claim describes does
not happen. -/
theorem C5_counterexample_no_envelope_sibling :
    dictGet resultWithAttrs "sessionAttributes" = some (.vobj [("k", .vstr "v" none)]) ∧
    pyTruthy (.vobj [("k", .vstr "v" none)]) = true ∧
    handler envC5 evC5 = .ok (handlerSuccessResponse resultWithAttrs) ∧
    dictGet (handlerSuccessResponse resultWithAttrs) "sessionAttributes" = none ∧
    dictGet (handlerSuccessResponse resultWithAttrs) "body" =
      some (.vobj [("status", .vstr "success" none),
        ("sessionAttributes", .vobj [("k", .vstr "v" none)])]) :=
  ⟨rfl, rfl, rfl, rfl, rfl⟩

/-- Structural characterization of the success-path post-processing. -/
theorem handlerSuccessResponse_eq (result : Dict) :
    handlerSuccessResponse result =
      (match dictGet result "sessionAttributes" with
       | some v' =>
         if pyTruthy v' then
           dictSet (mkResponse 200 (dictRemove result "sessionAttributes")) "body"
             (.vobj (dictSet (dictRemove result "sessionAttributes") "sessionAttributes" v'))
         else mkResponse 200 (dictRemove result "sessionAttributes")
       | none => mkResponse 200 (dictRemove result "sessionAttributes")) := rfl

/-- The success response always carries status code 200. -/
theorem handlerSuccessResponse_statusCode (result : Dict) :
    dictGet (handlerSuccessResponse result) "statusCode" = some (.vnum 200) := by
  rw [handlerSuccessResponse_eq]
  cases dictGet result "sessionAttributes" with
  | none => rfl
  | some v =>
    by_cases hp : pyTruthy v = true
    · simp only [hp, if_true]
      rfl
    · simp only [Bool.eq_false_iff.mpr hp, Bool.false_eq_true, if_false]
      rfl

/-- C5 (amended): `sessionAttributes` is popped from the operation result;
the envelope never gains a top-level `sessionAttributes` key.  When the
popped value is truthy it is re-inserted at the top level of the response
*body* (appended last); when it is present but falsy it is dropped
entirely. -/
theorem C5_session_attrs_stay_in_body (result : Dict) (v : Val) :
    dictGet (handlerSuccessResponse result) "sessionAttributes" = none ∧
    (dictGet result "sessionAttributes" = some v → pyTruthy v = true →
      dictGet (handlerSuccessResponse result) "body" =
        some (.vobj (dictRemove result "sessionAttributes" ++ [("sessionAttributes", v)]))) ∧
    (dictGet result "sessionAttributes" = some v → pyTruthy v = false →
      dictGet (handlerSuccessResponse result) "body" =
        some (.vobj (dictRemove result "sessionAttributes"))) := by
  rw [handlerSuccessResponse_eq]
  cases hv : dictGet result "sessionAttributes" with
  | none =>
    refine ⟨rfl, ?_, ?_⟩ <;> intro hv' <;> exact Option.noConfusion hv'
  | some v' =>
    by_cases hp : pyTruthy v' = true
    · simp only [hp, if_true]
      refine ⟨rfl, ?_, ?_⟩
      · intro h1 _
        have hvv : v' = v := Option.some.inj h1
        subst hvv
        rw [dictSet_dictRemove_append]
        rfl
      · intro h1 h2
        have hvv : v' = v := Option.some.inj h1
        subst hvv
        rw [hp] at h2
        exact Bool.noConfusion h2
    · have hp' : pyTruthy v' = false := Bool.eq_false_iff.mpr hp
      simp only [hp', Bool.false_eq_true, if_false]
      refine ⟨rfl, ?_, ?_⟩
      · intro h1 h2
        have hvv : v' = v := Option.some.inj h1
        subst hvv
        rw [hp'] at h2
        exact Bool.noConfusion h2
      · intro _ _
        rfl

/-- C5 (amended) instantiated at concrete results with truthy and falsy
session attributes. -/
theorem C5_session_attrs_stay_in_body_witness :
    dictGet (handlerSuccessResponse resultWithAttrs) "sessionAttributes" = none ∧
    dictGet (handlerSuccessResponse resultWithAttrs) "body" =
      some (.vobj (dictRemove resultWithAttrs "sessionAttributes" ++
        [("sessionAttributes", .vobj [("k", .vstr "v" none)])])) ∧
    dictGet (handlerSuccessResponse resultWithEmptyAttrs) "body" =
      some (.vobj (dictRemove resultWithEmptyAttrs "sessionAttributes")) :=
  ⟨(C5_session_attrs_stay_in_body resultWithAttrs (.vobj [("k", .vstr "v" none)])).1,
   (C5_session_attrs_stay_in_body resultWithAttrs (.vobj [("k", .vstr "v" none)])).2.1 rfl rfl,
   (C5_session_attrs_stay_in_body resultWithEmptyAttrs (.vobj [])).2.2 rfl rfl⟩

/-- C6 counterexample: the operation succeeds, but a non-`ClientError`
exception from the session-store write escapes `_save_contact_attributes`
(its `except` clause only catches `ClientError`) and is converted by the
outer boundary into a 500 — the request does *not* return the success
(200) response. -/
theorem C6_counterexample_write_exception_500 :
    handleScoringVal (.vobj bodyC6cex) = .ok opResultC6 ∧
    saveContactAttributes envBadWrite (.vobj bodyC6cex) opResultC6 =
      .error (.otherError "connection reset") ∧
    handler envBadWrite evC6cex =
      .ok (mkResponse 500 [("error", .vstr "Internal server error" none)]) ∧
    dictGet (mkResponse 500 [("error", .vstr "Internal server error" none)]) "statusCode" =
      some (.vnum 500) ∧
    some (Val.vnum 500) ≠ some (Val.vnum 200) := by
  refine ⟨rfl, rfl, rfl, rfl, ?_⟩
  simp only [ne_eq, Option.some.injEq, Val.vnum.injEq]
  norm_num

/-- C6 (amended): after a successful operation, if the persistence step
returns (in particular when the write succeeds or raises a `ClientError`,
which it catches), the request returns the 200 success response; any
exception escaping the persistence step (a non-`ClientError` write
failure, or a type error on the id fields) is caught at the outer
boundary and converted to the 500 response — so the success response is
lost, but nothing propagates past the handler. -/
theorem C6_middleware_failure_semantics (env : Env) (ev : Dict) (sel : RouteSel)
    (bodyv : Val) (tag : HandlerTag) (result : Dict)
    (hex : extractRouteAndBody ev = .ok (sel, bodyv))
    (hres : resolveHandler sel = some tag)
    (hrun : runOp env tag bodyv = .ok result) :
    dictGet (handlerSuccessResponse result) "statusCode" = some (.vnum 200) ∧
    (∀ w, saveContactAttributes env bodyv result = .ok w →
      handler env ev = .ok (handlerSuccessResponse result)) ∧
    (∀ e, saveContactAttributes env bodyv result = .error e →
      handler env ev = .ok (mkResponse 500 [("error", .vstr "Internal server error" none)])) := by
  refine ⟨handlerSuccessResponse_statusCode result, ?_, ?_⟩
  · intro w hw
    have ht : tryBlock env tag bodyv = .ok (handlerSuccessResponse result) := by
      unfold tryBlock
      rw [hrun, exceptBind_ok, hw]
    simp only [handler, hex, hres, handleRouted, ht]
  · intro e he
    have ht : tryBlock env tag bodyv = .error e.toPyErr := by
      unfold tryBlock
      rw [hrun, exceptBind_ok, he]
    cases e <;> simp only [handler, hex, hres, handleRouted, ht] <;> rfl

/-- C6 (amended) instantiated: same event, write succeeding vs. raising a
connection error. -/
theorem C6_middleware_failure_semantics_witness :
    dictGet (handlerSuccessResponse opResultC6) "statusCode" = some (.vnum 200) ∧
    handler envDefault evC6cex = .ok (handlerSuccessResponse opResultC6) ∧
    handler envBadWrite evC6cex =
      .ok (mkResponse 500 [("error", .vstr "Internal server error" none)]) := by
  have h1 := C6_middleware_failure_semantics envDefault evC6cex
    (.action (.vstr "scoring" none)) (.vobj bodyC6cex) .scoring opResultC6 rfl rfl rfl
  have h2 := C6_middleware_failure_semantics envBadWrite evC6cex
    (.action (.vstr "scoring" none)) (.vobj bodyC6cex) .scoring opResultC6 rfl rfl rfl
  exact ⟨h1.1, h1.2.1 _ rfl, h2.2.2 _ rfl⟩

/-- C7: whenever the effective (env-fallback, stripped) instance id or the
contact id is blank (which covers an absent field) or fails the UUID
shape, `_save_contact_attributes` attempts no external write and returns
without error.  The id fields are string-valued-or-absent (captured by the
`stripIdVal … = .ok _` hypotheses). -/
theorem C7_persistence_skipped_on_invalid_ids (env : Env) (b : Dict) (result : Dict)
    (iid cid : String)
    (hi : stripIdVal (rawInstanceVal env b) = .ok iid)
    (hc : stripIdVal (rawContactVal b) = .ok cid)
    (hbad : iid = "" ∨ isUuidShape iid = false ∨ cid = "" ∨ isUuidShape cid = false) :
    saveContactAttributes env (.vobj b) result = .ok none := by
  show saveContactAttributesObj env b result = .ok none
  unfold saveContactAttributesObj
  rw [hi, saveBind_ok, hc, saveBind_ok]
  by_cases h1 : (iid == "" || !isUuidShape iid) = true
  · rw [if_pos h1]
  · have h1' : (iid == "" || !isUuidShape iid) = false := Bool.eq_false_iff.mpr h1
    rcases hbad with h | h | h | h
    · exact absurd (by simp [h]) h1
    · exact absurd (by simp [h]) h1
    · rw [if_neg (by simp [h1']), if_pos (by simp [h])]
    · rw [if_neg (by simp [h1']), if_pos (by simp [h])]

/-- C7 instantiated: absent instance id (and no env fallback) skips the
write. -/
theorem C7_persistence_skipped_witness :
    saveContactAttributes envDefault (.vobj bodyC7w) [] = .ok none :=
  C7_persistence_skipped_on_invalid_ids envDefault bodyC7w [] "" uuidA rfl rfl (Or.inl rfl)

/-- C8: the same scoring body invoked as a gateway path
(`/scoring/calculate`), a tool name (`scoringCalculate`, with or without a
`target___` prefix), or a direct action (`scoring`) dispatches to the same
handler with the same body and hence produces the same operation
result. -/
theorem C8_routing_equivalence (env : Env) (b : Dict) :
    dispatched (gatewayScoringEvent b) = some (some .scoring, .vobj b) ∧
    dispatched (toolScoringEvent b) = some (some .scoring, .vobj b) ∧
    dispatched (toolPrefixedScoringEvent b) = some (some .scoring, .vobj b) ∧
    dispatched (directScoringEvent b) = some (some .scoring, .vobj b) ∧
    invokeOp env (gatewayScoringEvent b) = some (handleScoringVal (.vobj b)) ∧
    invokeOp env (toolScoringEvent b) = invokeOp env (gatewayScoringEvent b) ∧
    invokeOp env (toolPrefixedScoringEvent b) = invokeOp env (gatewayScoringEvent b) ∧
    invokeOp env (directScoringEvent b) = invokeOp env (gatewayScoringEvent b) := by
  have hgw : dispatched (gatewayScoringEvent b) = some (some .scoring, .vobj b) := by
    cases b with
    | nil => rfl
    | cons p t => rfl
  have hgwInv : invokeOp env (gatewayScoringEvent b) = some (handleScoringVal (.vobj b)) := by
    cases b with
    | nil => rfl
    | cons p t => rfl
  refine ⟨hgw, rfl, rfl, rfl, hgwInv, ?_, ?_, ?_⟩ <;> rw [hgwInv] <;> rfl

/-- Assignment hits on lookup: `attrGet (attrSet m k v) k = some v`. -/
theorem attrGet_attrSet_self (m : List (String × String)) (k v : String) :
    attrGet (attrSet m k v) k = some v := by
  induction m with
  | nil => simp [attrSet, attrGet]
  | cons q t ih =>
    by_cases hq : (q.1 == k) = true
    · have hany : ((q :: t).any fun p => p.1 == k) = true := by simp [List.any_cons, hq]
      simp only [attrSet, hany, if_true, List.map_cons, hq, if_pos]
      simp [attrGet, List.find?]
    · have hq' : (q.1 == k) = false := Bool.eq_false_iff.mpr hq
      by_cases hT : (t.any fun p => p.1 == k) = true
      · have hany : ((q :: t).any fun p => p.1 == k) = true := by simp [List.any_cons, hT]
        simp only [attrSet, hany, if_true, List.map_cons, hq', if_neg, Bool.false_eq_true,
          if_false]
        have ihpos : attrGet (t.map fun p => if p.1 == k then (k, v) else p) k = some v := by
          have := ih
          simp only [attrSet, hT, if_true] at this
          exact this
        simpa [attrGet, List.find?, hq'] using ihpos
      · have hT' : (t.any fun p => p.1 == k) = false := Bool.eq_false_iff.mpr hT
        have hany : ((q :: t).any fun p => p.1 == k) = false := by
          simp [List.any_cons, hq', hT']
        simp only [attrSet, hany, Bool.false_eq_true, if_false, List.cons_append]
        have ihapp : attrGet (t ++ [(k, v)]) k = some v := by
          have := ih
          simp only [attrSet, hT', Bool.false_eq_true, if_false] at this
          exact this
        simpa [attrGet, List.find?, hq'] using ihapp

/-- Assignment at another key leaves a lookup unchanged. -/
theorem attrGet_attrSet_ne (m : List (String × String)) (k' v k : String)
    (hne : k' ≠ k) : attrGet (attrSet m k' v) k = attrGet m k := by
  induction m with
  | nil => simp [attrSet, attrGet, List.find?, beq_eq_false_iff_ne.mpr hne]
  | cons q t ih =>
    by_cases hq : (q.1 == k') = true
    · have hany : ((q :: t).any fun p => p.1 == k') = true := by simp [List.any_cons, hq]
      have hqk : (q.1 == k) = false := by
        rw [beq_iff_eq] at hq
        subst hq
        exact beq_eq_false_iff_ne.mpr hne
      have hkk : (k' == k) = false := beq_eq_false_iff_ne.mpr hne
      simp only [attrSet, hany, if_true, List.map_cons, hq, if_pos]
      simp only [attrGet, List.find?, hkk, hqk]
      by_cases hT : (t.any fun p => p.1 == k') = true
      · have iht := ih
        simp only [attrSet, hT, if_true] at iht
        simpa [attrGet] using iht
      · have hT' : (t.any fun p => p.1 == k') = false := Bool.eq_false_iff.mpr hT
        have hmap : ∀ p ∈ t, (if p.1 == k' then (k', v) else p) = p := by
          intro p hp
          have hpk : (p.1 == k') = false := by
            cases hb : (p.1 == k') with
            | false => rfl
            | true =>
              have hA : (t.any fun p => p.1 == k') = true := List.any_eq_true.mpr ⟨p, hp, hb⟩
              rw [hA] at hT'
              exact Bool.noConfusion hT'
          simp [hpk]
        have hmapid : (t.map fun p => if p.1 == k' then (k', v) else p) = t :=
          (List.map_congr_left hmap).trans (List.map_id t)
        rw [hmapid]
    · have hq' : (q.1 == k') = false := Bool.eq_false_iff.mpr hq
      by_cases hT : (t.any fun p => p.1 == k') = true
      · have hany : ((q :: t).any fun p => p.1 == k') = true := by simp [List.any_cons, hT]
        have iht := ih
        simp only [attrSet, hT, if_true] at iht
        simp only [attrSet, hany, if_true, List.map_cons, hq', Bool.false_eq_true, if_false]
        by_cases hqk : (q.1 == k) = true
        · simp [attrGet, List.find?, hqk]
        · have hqk' : (q.1 == k) = false := Bool.eq_false_iff.mpr hqk
          simp only [attrGet, List.find?, hqk']
          simpa [attrGet] using iht
      · have hT' : (t.any fun p => p.1 == k') = false := Bool.eq_false_iff.mpr hT
        have hany : ((q :: t).any fun p => p.1 == k') = false := by
          simp [List.any_cons, hq', hT']
        have iht := ih
        simp only [attrSet, hT', Bool.false_eq_true, if_false] at iht
        simp only [attrSet, hany, Bool.false_eq_true, if_false, List.cons_append]
        by_cases hqk : (q.1 == k) = true
        · simp [attrGet, List.find?, hqk]
        · have hqk' : (q.1 == k) = false := Bool.eq_false_iff.mpr hqk
          simp only [attrGet, List.find?, hqk']
          simpa [attrGet] using iht

/-- A collection step whose target attribute differs from `t` leaves the
lookup at `t` unchanged. -/
theorem collectStep_preserve (b : Dict) (t : String) (acc : List (String × String))
    (p : String × String) (hp : p.2 ≠ t) :
    attrGet (collectStep b acc p) t = attrGet acc t := by
  unfold collectStep
  cases hd : dictGet b p.1 with
  | none => rfl
  | some v =>
    split
    · rfl
    · rfl
    · split
      · rfl
      · exact attrGet_attrSet_ne acc p.2 _ t hp

/-- Folding collection steps none of which target `t` leaves the lookup at
`t` unchanged. -/
theorem attrGet_foldl_of_no_target (b : Dict) (t : String) :
    ∀ (L : List (String × String)) (acc : List (String × String)),
      (∀ p ∈ L, p.2 ≠ t) →
      attrGet (L.foldl (collectStep b) acc) t = attrGet acc t := by
  intro L
  induction L with
  | nil => intro acc _; rfl
  | cons q M ih =>
    intro acc hA
    rw [List.foldl_cons, ih _ (fun p hp => hA p (List.mem_cons_of_mem _ hp))]
    exact collectStep_preserve b t acc q (hA q (List.mem_cons_self _ _))

/-- If `ATTR_MAP` maps body key `k` to attribute `t`, no later entry
targets `t`, and `k` is present in the body with a non-blank string value,
then the collected attribute `t` is that (stripped) value. -/
theorem collect_alias_wins (b : Dict) (L1 L2 : List (String × String))
    (k t s : String) (po : Option Dict)
    (hmap : ATTR_MAP = L1 ++ (k, t) :: L2)
    (hA : ∀ p ∈ L2, p.2 ≠ t)
    (hget : dictGet b k = some (.vstr s po))
    (hs : pyStrip s ≠ "") :
    attrGet (collectBodyAttributes b) t = some (pyStrip s) := by
  unfold collectBodyAttributes
  rw [hmap, List.foldl_append, List.foldl_cons,
    attrGet_foldl_of_no_target b t L2 _ hA]
  have hstep : collectStep b (L1.foldl (collectStep b) []) (k, t) =
      attrSet (L1.foldl (collectStep b) []) t (pyStrip s) := by
    simp only [collectStep, hget]
    rw [if_neg (by simpa [pyValStr] using hs)]
    rfl
  rw [hstep, attrGet_attrSet_self]

/-- C10: when a body carries both whitelist aliases of the same canonical
attribute, both non-blank, the collected value is the one of the alias
appearing later in `ATTR_MAP`'s insertion order — `zip_code` over
`zipCode`, `keyword` over `needCategory`, `housingSituation` over
`housing_situation` — because the loop iterates the map in order and later
assignments overwrite earlier ones. -/
theorem C10_alias_overwrite_order (b : Dict) (s1 s2 : String) (p1 p2 : Option Dict) :
    (dictGet b "zipCode" = some (.vstr s1 p1) →
      dictGet b "zip_code" = some (.vstr s2 p2) →
      pyStrip s1 ≠ "" → pyStrip s2 ≠ "" →
      attrGet (collectBodyAttributes b) "zipCode" = some (pyStrip s2)) ∧
    (dictGet b "needCategory" = some (.vstr s1 p1) →
      dictGet b "keyword" = some (.vstr s2 p2) →
      pyStrip s1 ≠ "" → pyStrip s2 ≠ "" →
      attrGet (collectBodyAttributes b) "needCategory" = some (pyStrip s2)) ∧
    (dictGet b "housing_situation" = some (.vstr s1 p1) →
      dictGet b "housingSituation" = some (.vstr s2 p2) →
      pyStrip s1 ≠ "" → pyStrip s2 ≠ "" →
      attrGet (collectBodyAttributes b) "housingSituation" = some (pyStrip s2)) := by
  refine ⟨fun _ h2 _ hs2 => ?_, fun _ h2 _ hs2 => ?_, fun _ h2 _ hs2 => ?_⟩
  · exact collect_alias_wins b (ATTR_MAP.take 3) (ATTR_MAP.drop 4) "zip_code" "zipCode"
      s2 p2 rfl (by decide) h2 hs2
  · exact collect_alias_wins b (ATTR_MAP.take 11) (ATTR_MAP.drop 12) "keyword" "needCategory"
      s2 p2 rfl (by decide) h2 hs2
  · exact collect_alias_wins b (ATTR_MAP.take 22) (ATTR_MAP.drop 23) "housingSituation"
      "housingSituation" s2 p2 rfl (by decide) h2 hs2

/-- C10 instantiated at a body carrying all three alias pairs. -/
theorem C10_alias_overwrite_order_witness :
    attrGet (collectBodyAttributes bodyAliases) "zipCode" = some "22222" ∧
    attrGet (collectBodyAttributes bodyAliases) "needCategory" = some "rent" ∧
    attrGet (collectBodyAttributes bodyAliases) "housingSituation" = some "homeless" :=
  ⟨(C10_alias_overwrite_order bodyAliases "11111" "22222" none none).1 rfl rfl
      (by decide) (by decide),
   (C10_alias_overwrite_order bodyAliases "food" "rent" none none).2.1 rfl rfl
      (by decide) (by decide),
   (C10_alias_overwrite_order bodyAliases "shelter" "homeless" none none).2.2 rfl rfl
      (by decide) (by decide)⟩

end Stability360
